import Mathlib

/-!
Shallow embedding of `gnss/common/utils/vts/Utils.cpp` from
android_hardware_interfaces, together with theorems checking the
natural-language specification of that file.

Modelling conventions:
* `double`/`float` fields become `ℚ`; every literal in the source is an exact
  decimal, so all comparisons made by the code are exact over `ℚ`.
* The `GnssLocationFlags` bitfield stays a bitmask (`Nat`), with the bit
  constants of the `gnss@1.0` HAL; `flags & F` becomes `hasFlag flags F`.
* Each gtest `EXPECT_*` assertion is non-fatal, so `checkLocation` is embedded
  as a function returning the list of failed expectations (violations), in
  source order; an empty list means the location passed every check.
* `hidl_vec` becomes `List`; the nullary mock builders take `Unit` so that
  distinct invocations can be talked about.
* The ambient `property_get` system-property read is out of scope of the
  repository; it is passed in as a lookup function `String → Option String`
  (`none` = read failure / absent key), while the defaulting and the
  `strncmp` bounded comparison are embedded from the source.
-/

namespace V1_0

/-- Bit constants of the `gnss@1.0` `GnssLocationFlags` bitfield. -/
def HAS_LAT_LONG : Nat := 0x0001

def HAS_ALTITUDE : Nat := 0x0002

def HAS_SPEED : Nat := 0x0004

def HAS_BEARING : Nat := 0x0008

def HAS_HORIZONTAL_ACCURACY : Nat := 0x0010

def HAS_VERTICAL_ACCURACY : Nat := 0x0020

def HAS_SPEED_ACCURACY : Nat := 0x0040

def HAS_BEARING_ACCURACY : Nat := 0x0080

/-- Embedding of `gnss@1.0` `GnssConstellationType`. -/
inductive GnssConstellationType
  | UNKNOWN
  | GPS
  | SBAS
  | GLONASS
  | QZSS
  | BEIDOU
  | GALILEO
deriving DecidableEq, Repr

/-- Embedding of `gnss@1.0` `GnssLocation`. -/
structure GnssLocation where
  gnssLocationFlags : Nat
  latitudeDegrees : ℚ
  longitudeDegrees : ℚ
  altitudeMeters : ℚ
  speedMetersPerSec : ℚ
  bearingDegrees : ℚ
  horizontalAccuracyMeters : ℚ
  verticalAccuracyMeters : ℚ
  speedAccuracyMetersPerSecond : ℚ
  bearingAccuracyDegrees : ℚ
  timestamp : ℤ
deriving DecidableEq, Repr

end V1_0

namespace V2_0

/-- Embedding of `gnss@2.0` `GnssConstellationType`: the 1.0 domain extended with IRNSS. -/
inductive GnssConstellationType
  | UNKNOWN
  | GPS
  | SBAS
  | GLONASS
  | QZSS
  | BEIDOU
  | GALILEO
  | IRNSS
deriving DecidableEq, Repr

end V2_0

/-- The test `flags & F` as used by the C++ code on the bitfield. -/
def hasFlag (flags F : Nat) : Bool := flags &&& F ≠ 0

/-- One failed gtest expectation inside `Utils::checkLocation`; a constructor
per `EXPECT_*` of the source, in source order. -/
inductive Violation
  | missingLatLongFlag
  | missingAltitudeFlag
  | missingSpeedFlag
  | missingHorizontalAccuracyFlag
  | missingVerticalAccuracyFlag
  | missingSpeedAccuracyFlag
  | missingBearingAccuracyFlag
  | latitudeBelowMin
  | latitudeAboveMax
  | longitudeBelowMin
  | longitudeAboveMax
  | altitudeBelowMin
  | altitudeAboveMax
  | speedBelowMin
  | speedAboveMax
  | missingBearingForMovingFix
  | horizontalAccuracyNotPositive
  | horizontalAccuracyAboveMax
  | bearingBelowMin
  | bearingAboveMax
  | verticalAccuracyNotPositive
  | verticalAccuracyAboveMax
  | speedAccuracyNotPositive
  | speedAccuracyAboveMax
  | bearingAccuracyNotPositive
  | bearingAccuracyAboveMax
  | timestampTooOld
deriving DecidableEq, Repr

/-- One `EXPECT_*` assertion: records a violation exactly when the expected
condition fails (gtest expectations are non-fatal, so checking continues). -/
def expect (p : Prop) [Decidable p] (v : Violation) : List Violation :=
  if p then [] else [v]

namespace Utils

open V1_0

/-- Embedding of `Utils::checkLocation`, as the list of failed expectations in
source order. -/
def checkLocation (location : GnssLocation) (check_speed check_more_accuracies : Bool) :
    List Violation :=
  expect (hasFlag location.gnssLocationFlags HAS_LAT_LONG = true) .missingLatLongFlag
  ++ expect (hasFlag location.gnssLocationFlags HAS_ALTITUDE = true) .missingAltitudeFlag
  ++ (if check_speed then
        expect (hasFlag location.gnssLocationFlags HAS_SPEED = true) .missingSpeedFlag
      else [])
  ++ expect (hasFlag location.gnssLocationFlags HAS_HORIZONTAL_ACCURACY = true)
        .missingHorizontalAccuracyFlag
  ++ (if check_more_accuracies then
        expect (hasFlag location.gnssLocationFlags HAS_VERTICAL_ACCURACY = true)
            .missingVerticalAccuracyFlag
        ++ (if check_speed then
              expect (hasFlag location.gnssLocationFlags HAS_SPEED_ACCURACY = true)
                  .missingSpeedAccuracyFlag
              ++ (if hasFlag location.gnssLocationFlags HAS_BEARING then
                    expect (hasFlag location.gnssLocationFlags HAS_BEARING_ACCURACY = true)
                        .missingBearingAccuracyFlag
                  else [])
            else [])
      else [])
  ++ expect (location.latitudeDegrees ≥ -90) .latitudeBelowMin
  ++ expect (location.latitudeDegrees ≤ 90) .latitudeAboveMax
  ++ expect (location.longitudeDegrees ≥ -180) .longitudeBelowMin
  ++ expect (location.longitudeDegrees ≤ 180) .longitudeAboveMax
  ++ expect (location.altitudeMeters ≥ -1000) .altitudeBelowMin
  ++ expect (location.altitudeMeters ≤ 30000) .altitudeAboveMax
  ++ (if check_speed then
        expect (location.speedMetersPerSec ≥ 0) .speedBelowMin
        ++ expect (location.speedMetersPerSec ≤ 5) .speedAboveMax
        ++ (if location.speedMetersPerSec > 0 then
              expect (hasFlag location.gnssLocationFlags HAS_BEARING = true)
                  .missingBearingForMovingFix
            else [])
      else [])
  ++ expect (location.horizontalAccuracyMeters > 0) .horizontalAccuracyNotPositive
  ++ expect (location.horizontalAccuracyMeters ≤ 250) .horizontalAccuracyAboveMax
  ++ (if hasFlag location.gnssLocationFlags HAS_BEARING then
        expect (location.bearingDegrees ≥ -180) .bearingBelowMin
        ++ expect (location.bearingDegrees ≤ 360) .bearingAboveMax
      else [])
  ++ (if hasFlag location.gnssLocationFlags HAS_VERTICAL_ACCURACY then
        expect (location.verticalAccuracyMeters > 0) .verticalAccuracyNotPositive
        ++ expect (location.verticalAccuracyMeters ≤ 500) .verticalAccuracyAboveMax
      else [])
  ++ (if hasFlag location.gnssLocationFlags HAS_SPEED_ACCURACY then
        expect (location.speedAccuracyMetersPerSecond > 0) .speedAccuracyNotPositive
        ++ expect (location.speedAccuracyMetersPerSecond ≤ 50) .speedAccuracyAboveMax
      else [])
  ++ (if hasFlag location.gnssLocationFlags HAS_BEARING_ACCURACY then
        expect (location.bearingAccuracyDegrees > 0) .bearingAccuracyNotPositive
        ++ expect (location.bearingAccuracyDegrees ≤ 360) .bearingAccuracyAboveMax
      else [])
  ++ expect ((location.timestamp : ℚ) > 1480000000000) .timestampTooOld

end Utils

namespace V1_0

/-- Embedding of `measurement_corrections@1.0` `ReflectingPlane`. -/
structure ReflectingPlane where
  latitudeDegrees : ℚ := 0
  longitudeDegrees : ℚ := 0
  altitudeMeters : ℚ := 0
  azimuthDegrees : ℚ := 0
deriving DecidableEq, Repr

/-- Bit constants of `measurement_corrections@1.0` `GnssSingleSatCorrectionFlags`. -/
def HAS_SAT_IS_LOS_PROBABILITY : Nat := 0x0001

def HAS_EXCESS_PATH_LENGTH : Nat := 0x0002

def HAS_EXCESS_PATH_LENGTH_UNC : Nat := 0x0004

def HAS_REFLECTING_PLANE : Nat := 0x0008

/-- Embedding of `measurement_corrections@1.0` `SingleSatCorrection`; fields left out of a
C++ designated initializer are value-initialized, hence the zero defaults. -/
structure SingleSatCorrection where
  singleSatCorrectionFlags : Nat := 0
  constellation : GnssConstellationType := .UNKNOWN
  svid : Nat := 0
  carrierFrequencyHz : ℚ := 0
  probSatIsLos : ℚ := 0
  excessPathLengthMeters : ℚ := 0
  excessPathLengthUncertaintyMeters : ℚ := 0
  reflectingPlane : ReflectingPlane := {}
deriving DecidableEq, Repr

instance : Inhabited SingleSatCorrection := ⟨{}⟩

/-- Embedding of `measurement_corrections@1.0` `MeasurementCorrections`. -/
structure MeasurementCorrections where
  latitudeDegrees : ℚ := 0
  longitudeDegrees : ℚ := 0
  altitudeMeters : ℚ := 0
  horizontalPositionUncertaintyMeters : ℚ := 0
  verticalPositionUncertaintyMeters : ℚ := 0
  toaGpsNanosecondsOfWeek : Nat := 0
  satCorrections : List SingleSatCorrection := []
deriving DecidableEq, Repr

end V1_0

namespace V1_1

/-- Embedding of `measurement_corrections@1.1` `SingleSatCorrection`: wraps the 1.0 record
and re-expresses the constellation in the 2.0 domain. -/
structure SingleSatCorrection where
  v1_0 : V1_0.SingleSatCorrection := {}
  constellation : V2_0.GnssConstellationType := .UNKNOWN
deriving DecidableEq, Repr

/-- Embedding of `measurement_corrections@1.1` `MeasurementCorrections`. -/
structure MeasurementCorrections where
  v1_0 : V1_0.MeasurementCorrections := {}
  hasEnvironmentBearing : Bool := false
  environmentBearingDegrees : ℚ := 0
  environmentBearingUncertaintyDegrees : ℚ := 0
  satCorrections : List SingleSatCorrection := []
deriving DecidableEq, Repr

end V1_1

namespace Utils

open V1_0

/-- Embedding of `Utils::getMockMeasurementCorrections`; the `Unit` argument stands for one
invocation of the nullary C++ function. -/
def getMockMeasurementCorrections : Unit → MeasurementCorrections := fun _ =>
  let reflectingPlane : ReflectingPlane :=
    { latitudeDegrees := 37.4220039
      longitudeDegrees := -122.0840991
      altitudeMeters := 250.35
      azimuthDegrees := 203.0 }
  let singleSatCorrection1 : SingleSatCorrection :=
    { singleSatCorrectionFlags := HAS_SAT_IS_LOS_PROBABILITY ||| HAS_EXCESS_PATH_LENGTH |||
        HAS_EXCESS_PATH_LENGTH_UNC ||| HAS_REFLECTING_PLANE
      constellation := .GPS
      svid := 12
      carrierFrequencyHz := 1.59975e9
      probSatIsLos := 0.50001
      excessPathLengthMeters := 137.4802
      excessPathLengthUncertaintyMeters := 25.5
      reflectingPlane := reflectingPlane }
  let singleSatCorrection2 : SingleSatCorrection :=
    { singleSatCorrectionFlags := HAS_SAT_IS_LOS_PROBABILITY ||| HAS_EXCESS_PATH_LENGTH |||
        HAS_EXCESS_PATH_LENGTH_UNC
      constellation := .GPS
      svid := 9
      carrierFrequencyHz := 1.59975e9
      probSatIsLos := 0.873
      excessPathLengthMeters := 26.294
      excessPathLengthUncertaintyMeters := 10.0 }
  let singleSatCorrections := [singleSatCorrection1, singleSatCorrection2]
  let mockCorrections : MeasurementCorrections :=
    { latitudeDegrees := 37.4219999
      longitudeDegrees := -122.0840575
      altitudeMeters := 30.60062531
      horizontalPositionUncertaintyMeters := 9.23542
      verticalPositionUncertaintyMeters := 15.02341
      toaGpsNanosecondsOfWeek := 2935633453
      satCorrections := singleSatCorrections }
  mockCorrections

/-- Embedding of `Utils::getMockMeasurementCorrections_1_1`: copies the two 1.0 satellite
corrections into 1.1 wrappers tagged IRNSS, then overwrites the constellation
of the two entries still inside the embedded 1.0 record with UNKNOWN
(the in-place narrowing `satCorrections[i].constellation = UNKNOWN` of the
source becomes a functional `List.set` at the same indices). -/
def getMockMeasurementCorrections_1_1 : Unit → V1_1.MeasurementCorrections := fun u =>
  let mockCorrections_1_0 := getMockMeasurementCorrections u
  let singleSatCorrection1 : V1_1.SingleSatCorrection :=
    { v1_0 := mockCorrections_1_0.satCorrections[0]!
      constellation := .IRNSS }
  let singleSatCorrection2 : V1_1.SingleSatCorrection :=
    { v1_0 := mockCorrections_1_0.satCorrections[1]!
      constellation := .IRNSS }
  let mockCorrections_1_0 :=
    { mockCorrections_1_0 with
        satCorrections :=
          (mockCorrections_1_0.satCorrections.set 0
              { mockCorrections_1_0.satCorrections[0]! with constellation := .UNKNOWN }).set 1
            { mockCorrections_1_0.satCorrections[1]! with constellation := .UNKNOWN } }
  let singleSatCorrections := [singleSatCorrection1, singleSatCorrection2]
  let mockCorrections_1_1 : V1_1.MeasurementCorrections :=
    { v1_0 := mockCorrections_1_0
      hasEnvironmentBearing := true
      environmentBearingDegrees := 45.0
      environmentBearingUncertaintyDegrees := 4.0
      satCorrections := singleSatCorrections }
  mockCorrections_1_1

/-- Embedding of `Utils::mapConstellationType`: maps a 2.0 constellation to its 1.0
equivalent; constellations without one map to `UNKNOWN` (the `default:`
branch of the source's `switch`). -/
def mapConstellationType (constellation : V2_0.GnssConstellationType) :
    V1_0.GnssConstellationType :=
  match constellation with
  | .GPS => .GPS
  | .SBAS => .SBAS
  | .GLONASS => .GLONASS
  | .QZSS => .QZSS
  | .BEIDOU => .BEIDOU
  | .GALILEO => .GALILEO
  | _ => .UNKNOWN

end Utils

/-- Constant `PROPERTY_VALUE_MAX` of `cutils/properties.h` (92, terminator included). -/
def PROPERTY_VALUE_MAX : Nat := 92

/-- C `strncmp(a, b, n) == 0` on NUL-free strings: the end of the list plays
the terminator, so a length mismatch within the first `n` characters is a
mismatch of a character against NUL. -/
def strncmpZ : List Char → List Char → Nat → Bool
  | _, _, 0 => true
  | [], [], _ + 1 => true
  | [], _ :: _, _ + 1 => false
  | _ :: _, [], _ + 1 => false
  | a :: as, b :: bs, n + 1 => a = b && strncmpZ as bs n

/-- Embedding of `property_get(key, buffer, default)`: yields the property's value, or the
default when the read fails or the key is absent, truncated to the buffer's
`PROPERTY_VALUE_MAX - 1` usable characters. The property store itself is an
external collaborator, passed in as `props`. -/
def property_get (props : String → Option String) (key : String)
    (defaultValue : String) : List Char :=
  (((props key).getD defaultValue).toList.take (PROPERTY_VALUE_MAX - 1))

namespace Utils

/-- Embedding of `Utils::isAutomotiveDevice`: reads `ro.hardware.type` (default `""`) and
compares it to `"automotive"` with `strncmp` bounded by `PROPERTY_VALUE_MAX`. -/
def isAutomotiveDevice (props : String → Option String) : Bool :=
  let buffer := property_get props "ro.hardware.type" ""
  strncmpZ buffer "automotive".toList PROPERTY_VALUE_MAX

end Utils

open V1_0

/-- Modelled from the spec (rules 1-11 of its validator contract): every
mandatory-flag rule and every range rule the spec states for
`validateLocationRecord`, as one predicate. Note the spec's mandatory-flag
rule lists latitude/longitude and horizontal accuracy but not altitude, and
scopes its bearing-accuracy rule under `checkMoreAccuracies` alone. -/
def specValidLocation (r : GnssLocation) (checkSpeed checkMoreAccuracies : Bool) : Prop :=
  hasFlag r.gnssLocationFlags HAS_LAT_LONG = true ∧
  hasFlag r.gnssLocationFlags HAS_HORIZONTAL_ACCURACY = true ∧
  (checkSpeed = true → hasFlag r.gnssLocationFlags HAS_SPEED = true) ∧
  (checkMoreAccuracies = true →
    hasFlag r.gnssLocationFlags HAS_VERTICAL_ACCURACY = true ∧
    (checkSpeed = true → hasFlag r.gnssLocationFlags HAS_SPEED_ACCURACY = true) ∧
    (hasFlag r.gnssLocationFlags HAS_BEARING = true →
      hasFlag r.gnssLocationFlags HAS_BEARING_ACCURACY = true)) ∧
  (-90 ≤ r.latitudeDegrees ∧ r.latitudeDegrees ≤ 90) ∧
  (-180 ≤ r.longitudeDegrees ∧ r.longitudeDegrees ≤ 180) ∧
  (-1000 ≤ r.altitudeMeters ∧ r.altitudeMeters ≤ 30000) ∧
  (checkSpeed = true →
    (0 ≤ r.speedMetersPerSec ∧ r.speedMetersPerSec ≤ 5) ∧
    (0 < r.speedMetersPerSec → hasFlag r.gnssLocationFlags HAS_BEARING = true)) ∧
  (0 < r.horizontalAccuracyMeters ∧ r.horizontalAccuracyMeters ≤ 250) ∧
  (hasFlag r.gnssLocationFlags HAS_BEARING = true →
    -180 ≤ r.bearingDegrees ∧ r.bearingDegrees ≤ 360) ∧
  (hasFlag r.gnssLocationFlags HAS_VERTICAL_ACCURACY = true →
    0 < r.verticalAccuracyMeters ∧ r.verticalAccuracyMeters ≤ 500) ∧
  (hasFlag r.gnssLocationFlags HAS_SPEED_ACCURACY = true →
    0 < r.speedAccuracyMetersPerSecond ∧ r.speedAccuracyMetersPerSecond ≤ 50) ∧
  (hasFlag r.gnssLocationFlags HAS_BEARING_ACCURACY = true →
    0 < r.bearingAccuracyDegrees ∧ r.bearingAccuracyDegrees ≤ 360) ∧
  1480000000000 < (r.timestamp : ℚ)

instance instDecidableSpecValidLocation (r : GnssLocation) (cs cma : Bool) :
    Decidable (specValidLocation r cs cma) := by
  unfold specValidLocation
  infer_instance

/-- A location whose bearing flag is set but whose bearing-accuracy flag is
not, with every other field valid; exercises the bearing-accuracy rule. -/
def bearingNoAccuracyLocation : GnssLocation :=
  { gnssLocationFlags := HAS_LAT_LONG ||| HAS_ALTITUDE ||| HAS_HORIZONTAL_ACCURACY |||
      HAS_VERTICAL_ACCURACY ||| HAS_BEARING
    latitudeDegrees := 37
    longitudeDegrees := -122
    altitudeMeters := 10
    speedMetersPerSec := 0
    bearingDegrees := 45
    horizontalAccuracyMeters := 5
    verticalAccuracyMeters := 5
    speedAccuracyMetersPerSecond := 0
    bearingAccuracyDegrees := 0
    timestamp := 1600000000000 }

/-- A location satisfying every rule the spec states for the validator, but
with the altitude flag clear (the spec's mandatory-flag rule omits it). -/
def noAltitudeFlagLocation : GnssLocation :=
  { gnssLocationFlags := HAS_LAT_LONG ||| HAS_HORIZONTAL_ACCURACY
    latitudeDegrees := 37
    longitudeDegrees := -122
    altitudeMeters := 10
    speedMetersPerSec := 0
    bearingDegrees := 0
    horizontalAccuracyMeters := 5
    verticalAccuracyMeters := 5
    speedAccuracyMetersPerSecond := 1
    bearingAccuracyDegrees := 1
    timestamp := 1600000000000 }

/-- A location passing every check of `checkLocation`, including the altitude
flag, with the speed / vertical-accuracy / speed-accuracy flags needed under
`check_speed` and `check_more_accuracies` both true. -/
def fullyValidLocation : GnssLocation :=
  { gnssLocationFlags := HAS_LAT_LONG ||| HAS_ALTITUDE ||| HAS_SPEED |||
      HAS_HORIZONTAL_ACCURACY ||| HAS_VERTICAL_ACCURACY ||| HAS_SPEED_ACCURACY
    latitudeDegrees := 37
    longitudeDegrees := -122
    altitudeMeters := 10
    speedMetersPerSec := 0
    bearingDegrees := 0
    horizontalAccuracyMeters := 5
    verticalAccuracyMeters := 5
    speedAccuracyMetersPerSecond := 1
    bearingAccuracyDegrees := 0
    timestamp := 1600000000000 }

/-- A location that is valid in every respect except that it moves at
2 m/s without reporting a bearing. -/
def movingNoBearingLocation : GnssLocation :=
  { gnssLocationFlags := HAS_LAT_LONG ||| HAS_ALTITUDE ||| HAS_SPEED |||
      HAS_HORIZONTAL_ACCURACY
    latitudeDegrees := 37
    longitudeDegrees := -122
    altitudeMeters := 10
    speedMetersPerSec := 2
    bearingDegrees := 0
    horizontalAccuracyMeters := 5
    verticalAccuracyMeters := 5
    speedAccuracyMetersPerSecond := 1
    bearingAccuracyDegrees := 1
    timestamp := 1600000000000 }

theorem mem_expect {p : Prop} [Decidable p] {v w : Violation} :
    v ∈ expect p w ↔ ¬p ∧ v = w := by
  simp only [expect]
  split <;> simp_all

theorem mem_ite_nil {c : Prop} [Decidable c] {l : List Violation} {v : Violation} :
    v ∈ (if c then l else []) ↔ c ∧ v ∈ l := by
  split <;> simp_all

theorem expect_eq_nil {p : Prop} [Decidable p] {v : Violation} :
    expect p v = [] ↔ p := by
  simp only [expect]
  split <;> simp_all

theorem ite_nil_eq_nil {c : Prop} [Decidable c] {l : List Violation} :
    (if c then l else []) = [] ↔ (c → l = []) := by
  split <;> simp_all

/-- Claim C1 (counterexample): the spec states the bearing-accuracy rule under
`checkMoreAccuracies` alone, but the code nests it under `check_speed` too:
with `check_speed = false` and `check_more_accuracies = true`, a location whose
bearing flag is set and bearing-accuracy flag is clear produces no
bearing-accuracy violation — indeed no violation at all. -/
theorem checkLocation_bearingAccuracy_skipped_without_checkSpeed :
    hasFlag bearingNoAccuracyLocation.gnssLocationFlags HAS_BEARING = true ∧
    hasFlag bearingNoAccuracyLocation.gnssLocationFlags HAS_BEARING_ACCURACY = false ∧
    Violation.missingBearingAccuracyFlag ∉
      Utils.checkLocation bearingNoAccuracyLocation false true ∧
    Utils.checkLocation bearingNoAccuracyLocation false true = [] := by
  decide

/-- Claim C1 (amended): when `check_more_accuracies` and `check_speed` are
both true, a set bearing flag without the bearing-accuracy flag makes
`checkLocation` report the missing-bearing-accuracy violation. -/
theorem checkLocation_bearingAccuracy_with_both_checks (r : GnssLocation)
    (hb : hasFlag r.gnssLocationFlags HAS_BEARING = true)
    (hnacc : hasFlag r.gnssLocationFlags HAS_BEARING_ACCURACY = false) :
    Violation.missingBearingAccuracyFlag ∈ Utils.checkLocation r true true := by
  simp [Utils.checkLocation, List.mem_append, mem_expect, mem_ite_nil, hb, hnacc]

/-- Claim C1 (witness for the amended theorem). -/
theorem checkLocation_bearingAccuracy_with_both_checks_witness :
    Violation.missingBearingAccuracyFlag ∈
      Utils.checkLocation bearingNoAccuracyLocation true true :=
  checkLocation_bearingAccuracy_with_both_checks bearingNoAccuracyLocation
    (by decide) (by decide)

/-- Claim C3 (counterexample): a location meeting every mandatory-flag and
range rule the spec states (the altitude flag is not among them) is still
rejected by `checkLocation`, which unconditionally demands the altitude flag. -/
theorem checkLocation_rejects_spec_valid_without_altitude_flag :
    specValidLocation noAltitudeFlagLocation false false ∧
    Utils.checkLocation noAltitudeFlagLocation false false =
      [Violation.missingAltitudeFlag] := by
  constructor
  · decide
  · decide

/-- Claim C3 (amended): a location that satisfies every mandatory-flag and
range rule of the spec and additionally carries the altitude flag receives
zero violations from `checkLocation`, for every combination of `check_speed`
and `check_more_accuracies`. -/
theorem checkLocation_no_violation_on_valid (r : GnssLocation) (cs cma : Bool)
    (halt : hasFlag r.gnssLocationFlags HAS_ALTITUDE = true)
    (h : specValidLocation r cs cma) :
    Utils.checkLocation r cs cma = [] := by
  obtain ⟨hll, hha, hspf, hma, ⟨hlat1, hlat2⟩, ⟨hlon1, hlon2⟩, ⟨halt1, halt2⟩, hspd,
    ⟨hh1, hh2⟩, hbrg, hva, hsa, hba, hts⟩ := h
  simp only [Utils.checkLocation, List.append_eq_nil, expect_eq_nil, ite_nil_eq_nil,
    and_assoc, ge_iff_le, gt_iff_lt]
  refine ⟨hll, halt, hspf, hha,
    fun hcma => ⟨(hma hcma).1, fun hcs => ⟨(hma hcma).2.1 hcs, fun hb => (hma hcma).2.2 hb⟩⟩,
    hlat1, hlat2, hlon1, hlon2, halt1, halt2,
    fun hcs => ⟨(hspd hcs).1.1, (hspd hcs).1.2, fun h0 => (hspd hcs).2 h0⟩,
    hh1, hh2, hbrg, hva, hsa, hba, hts⟩

/-- Claim C3 (witness for the amended theorem): a concrete fully valid
location, with both check parameters on. -/
theorem checkLocation_no_violation_on_valid_witness :
    Utils.checkLocation fullyValidLocation true true = [] :=
  checkLocation_no_violation_on_valid fullyValidLocation true true
    (by decide) (by decide)

/-- Claim C9: `checkLocation` demands the altitude flag unconditionally — for
every location and both boolean parameters, the missing-altitude violation is
reported exactly when the altitude flag is clear. -/
theorem checkLocation_requires_altitude_flag :
    ∀ (r : GnssLocation) (cs cma : Bool),
      Violation.missingAltitudeFlag ∈ Utils.checkLocation r cs cma ↔
        hasFlag r.gnssLocationFlags HAS_ALTITUDE = false := by
  intro r cs cma
  simp [Utils.checkLocation, List.mem_append, mem_expect, mem_ite_nil]

/-- Claim C5: the range checks on latitude, longitude, altitude, horizontal
accuracy and timestamp are applied for every location and both boolean
parameters, each reporting its violation exactly when its bound fails. -/
theorem checkLocation_unconditional_range_checks :
    ∀ (r : GnssLocation) (cs cma : Bool),
      (Violation.latitudeBelowMin ∈ Utils.checkLocation r cs cma ↔
        r.latitudeDegrees < -90) ∧
      (Violation.latitudeAboveMax ∈ Utils.checkLocation r cs cma ↔
        90 < r.latitudeDegrees) ∧
      (Violation.longitudeBelowMin ∈ Utils.checkLocation r cs cma ↔
        r.longitudeDegrees < -180) ∧
      (Violation.longitudeAboveMax ∈ Utils.checkLocation r cs cma ↔
        180 < r.longitudeDegrees) ∧
      (Violation.altitudeBelowMin ∈ Utils.checkLocation r cs cma ↔
        r.altitudeMeters < -1000) ∧
      (Violation.altitudeAboveMax ∈ Utils.checkLocation r cs cma ↔
        30000 < r.altitudeMeters) ∧
      (Violation.horizontalAccuracyNotPositive ∈ Utils.checkLocation r cs cma ↔
        r.horizontalAccuracyMeters ≤ 0) ∧
      (Violation.horizontalAccuracyAboveMax ∈ Utils.checkLocation r cs cma ↔
        250 < r.horizontalAccuracyMeters) ∧
      (Violation.timestampTooOld ∈ Utils.checkLocation r cs cma ↔
        (r.timestamp : ℚ) ≤ 1480000000000) := by
  intro r cs cma
  refine ⟨?_, ?_, ?_, ?_, ?_, ?_, ?_, ?_, ?_⟩ <;>
    simp [Utils.checkLocation, List.mem_append, mem_expect, mem_ite_nil]

/-- Claim C6: with `check_speed = true`, speed must lie in [0, 5] and a
strictly positive speed demands the bearing flag; a concrete otherwise-valid
location with speed 2 and no bearing flag gets exactly the
missing-bearing-for-moving-fix violation. -/
theorem checkLocation_speed_rules :
    (∀ (r : GnssLocation) (cma : Bool),
      (Violation.speedBelowMin ∈ Utils.checkLocation r true cma ↔
        r.speedMetersPerSec < 0) ∧
      (Violation.speedAboveMax ∈ Utils.checkLocation r true cma ↔
        5 < r.speedMetersPerSec) ∧
      (Violation.missingBearingForMovingFix ∈ Utils.checkLocation r true cma ↔
        0 < r.speedMetersPerSec ∧
          hasFlag r.gnssLocationFlags HAS_BEARING = false)) ∧
    Utils.checkLocation movingNoBearingLocation true false =
      [Violation.missingBearingForMovingFix] := by
  constructor
  · intro r cma
    refine ⟨?_, ?_, ?_⟩ <;>
      simp [Utils.checkLocation, List.mem_append, mem_expect, mem_ite_nil]
  · decide

/-- Claim C2: the extended mock record narrows every satellite correction of
its embedded 1.0 record to UNKNOWN, tags every extended satellite correction
IRNSS, keeps all numeric fields of the embedded 1.0 record equal to the base
builder's, and sets the fixed environment bearing with its uncertainty. -/
theorem getMockMeasurementCorrections_1_1_contents :
    (∀ sc ∈ (Utils.getMockMeasurementCorrections_1_1 ()).v1_0.satCorrections,
        sc.constellation = V1_0.GnssConstellationType.UNKNOWN) ∧
    (∀ sc ∈ (Utils.getMockMeasurementCorrections_1_1 ()).satCorrections,
        sc.constellation = V2_0.GnssConstellationType.IRNSS) ∧
    (Utils.getMockMeasurementCorrections_1_1 ()).v1_0.latitudeDegrees =
      (Utils.getMockMeasurementCorrections ()).latitudeDegrees ∧
    (Utils.getMockMeasurementCorrections_1_1 ()).v1_0.longitudeDegrees =
      (Utils.getMockMeasurementCorrections ()).longitudeDegrees ∧
    (Utils.getMockMeasurementCorrections_1_1 ()).v1_0.altitudeMeters =
      (Utils.getMockMeasurementCorrections ()).altitudeMeters ∧
    (Utils.getMockMeasurementCorrections_1_1 ()).v1_0.horizontalPositionUncertaintyMeters =
      (Utils.getMockMeasurementCorrections ()).horizontalPositionUncertaintyMeters ∧
    (Utils.getMockMeasurementCorrections_1_1 ()).v1_0.verticalPositionUncertaintyMeters =
      (Utils.getMockMeasurementCorrections ()).verticalPositionUncertaintyMeters ∧
    (Utils.getMockMeasurementCorrections_1_1 ()).v1_0.toaGpsNanosecondsOfWeek =
      (Utils.getMockMeasurementCorrections ()).toaGpsNanosecondsOfWeek ∧
    (Utils.getMockMeasurementCorrections_1_1 ()).hasEnvironmentBearing = true ∧
    (Utils.getMockMeasurementCorrections_1_1 ()).environmentBearingDegrees = 45 ∧
    (Utils.getMockMeasurementCorrections_1_1 ()).environmentBearingUncertaintyDegrees = 4 := by
  norm_num [Utils.getMockMeasurementCorrections_1_1, Utils.getMockMeasurementCorrections]

/-- Claim C8: the two mock builders are deterministic — any two invocations
return equal values. -/
theorem mock_builders_deterministic :
    ∀ u v : Unit,
      Utils.getMockMeasurementCorrections u = Utils.getMockMeasurementCorrections v ∧
      Utils.getMockMeasurementCorrections_1_1 u = Utils.getMockMeasurementCorrections_1_1 v := by
  intro u v
  cases u
  cases v
  exact ⟨rfl, rfl⟩

/-- Claim C10: each extended satellite correction of the extended mock record
embeds an unchanged copy of the corresponding original base entry — the copies
are taken before the narrowing mutation, so their constellation is still GPS. -/
theorem getMockMeasurementCorrections_1_1_copies_before_narrowing :
    (Utils.getMockMeasurementCorrections_1_1 ()).satCorrections.map (fun sc => sc.v1_0) =
      (Utils.getMockMeasurementCorrections ()).satCorrections ∧
    ∀ sc ∈ (Utils.getMockMeasurementCorrections_1_1 ()).satCorrections,
      sc.v1_0.constellation = V1_0.GnssConstellationType.GPS := by
  norm_num [Utils.getMockMeasurementCorrections_1_1, Utils.getMockMeasurementCorrections]

/-- Claim C4: `mapConstellationType` maps the six named 2.0 constellations to
their 1.0 namesakes, and every other member of the 2.0 domain to UNKNOWN;
being a total Lean function on the 2.0 domain, it is total by construction. -/
theorem mapConstellationType_total_spec :
    (Utils.mapConstellationType .GPS = V1_0.GnssConstellationType.GPS ∧
     Utils.mapConstellationType .SBAS = V1_0.GnssConstellationType.SBAS ∧
     Utils.mapConstellationType .GLONASS = V1_0.GnssConstellationType.GLONASS ∧
     Utils.mapConstellationType .QZSS = V1_0.GnssConstellationType.QZSS ∧
     Utils.mapConstellationType .BEIDOU = V1_0.GnssConstellationType.BEIDOU ∧
     Utils.mapConstellationType .GALILEO = V1_0.GnssConstellationType.GALILEO) ∧
    ∀ c : V2_0.GnssConstellationType,
      c ≠ .GPS → c ≠ .SBAS → c ≠ .GLONASS → c ≠ .QZSS → c ≠ .BEIDOU → c ≠ .GALILEO →
        Utils.mapConstellationType c = V1_0.GnssConstellationType.UNKNOWN := by
  refine ⟨⟨rfl, rfl, rfl, rfl, rfl, rfl⟩, ?_⟩
  intro c h1 h2 h3 h4 h5 h6
  cases c <;> first | rfl | simp_all

/-- Claim C4 (witness): IRNSS has no 1.0 equivalent and maps to UNKNOWN. -/
theorem mapConstellationType_total_spec_witness :
    Utils.mapConstellationType V2_0.GnssConstellationType.IRNSS =
      V1_0.GnssConstellationType.UNKNOWN :=
  mapConstellationType_total_spec.2 V2_0.GnssConstellationType.IRNSS
    (by decide) (by decide) (by decide) (by decide) (by decide) (by decide)

theorem strncmpZ_eq_true_iff (a b : List Char) (n : Nat) (h : b.length < n) :
    strncmpZ a b n = true ↔ a = b := by
  induction b generalizing a n with
  | nil =>
    cases n with
    | zero => omega
    | succ m => cases a <;> simp [strncmpZ]
  | cons d bs ih =>
    cases n with
    | zero => omega
    | succ m =>
      cases a with
      | nil => simp [strncmpZ]
      | cons c as =>
        have hm : bs.length < m := by
          simp only [List.length_cons] at h
          omega
        simp [strncmpZ, ih as m hm]

/-- Claim C7: `isAutomotiveDevice` is true exactly when the value read for
`ro.hardware.type` is the exact string "automotive"; a failed or absent read
defaults to the empty string, and "", "Automotive" and "automotive_extra"
all yield false. -/
theorem isAutomotiveDevice_spec :
    (∀ props : String → Option String,
      (Utils.isAutomotiveDevice props = true ↔
        (props "ro.hardware.type").getD "" = "automotive")) ∧
    Utils.isAutomotiveDevice (fun _ => none) = false ∧
    Utils.isAutomotiveDevice (fun _ => some "") = false ∧
    Utils.isAutomotiveDevice (fun _ => some "Automotive") = false ∧
    Utils.isAutomotiveDevice (fun _ => some "automotive_extra") = false ∧
    Utils.isAutomotiveDevice (fun _ => some "automotive") = true := by
  refine ⟨?_, by decide, by decide, by decide, by decide, by decide⟩
  intro props
  simp only [Utils.isAutomotiveDevice, property_get]
  rw [strncmpZ_eq_true_iff _ _ _ (by decide)]
  constructor
  · intro h
    have hlen := congrArg List.length h
    simp only [List.length_take] at hlen
    have h91 : PROPERTY_VALUE_MAX - 1 = 91 := by decide
    have h10 : "automotive".toList.length = 10 := by decide
    have hle : ((props "ro.hardware.type").getD "").toList.length ≤ PROPERTY_VALUE_MAX - 1 := by
      rw [h91, h10] at hlen
      omega
    rw [List.take_of_length_le hle] at h
    exact String.ext h
  · intro h
    rw [h]
    decide
